import Mathlib

/-!
Verification development for the certwatch-webhook-cli repository.

The Go sources under `internal/` are shallowly embedded: pure functions
become Lean functions, the effectful boundaries (HTTP exchanges, JSON
decoding by `encoding/json`) become explicit oracle parameters, and the
orchestration loop becomes a fold over the list of decoded records
(faithful to the source, whose stream reader drives all callbacks
sequentially from a single goroutine).
-/

namespace CertwatchCLI

/-! ### Go string helpers (mirroring the `strings` stdlib calls used) -/

/-- ASCII fragment of Go's `unicode.IsSpace`, the only code points the
CLI's inputs exercise. -/
def goIsSpace (c : Char) : Bool :=
  c == ' ' || c == '\t' || c == '\n' || c == '\x0b' || c == '\x0c' || c == '\r'

/-- Go's `strings.HasPrefix s p`. -/
def hasPrefixGo (s p : String) : Bool :=
  p.data.isPrefixOf s.data

/-- Go's `strings.TrimPrefix s p`. -/
def trimPrefixGo (s p : String) : String :=
  if hasPrefixGo s p then String.mk (s.data.drop p.data.length) else s

/-- Go's `strings.TrimSpace`. -/
def trimSpaceGo (s : String) : String :=
  String.mk (((s.data.dropWhile goIsSpace).reverse.dropWhile goIsSpace).reverse)

/-! ### Stream parser (`internal/stream.go`, `ConnectStream` scan loop)

`bufio.Scanner` with `ScanLines` splits the response body at `\n`,
dropping one trailing `\r` per line; at EOF a non-empty remainder is a
final token and a trailing newline produces no empty token. -/

/-- Drop a single trailing carriage return, as `bufio.ScanLines` does. -/
def dropCR (l : List Char) : List Char :=
  if l.getLast? = some '\r' then l.dropLast else l

def splitLinesAux : List Char → List Char → List (List Char)
  | [], acc => if acc.isEmpty then [] else [dropCR acc.reverse]
  | c :: rest, acc =>
      if c = '\n' then dropCR acc.reverse :: splitLinesAux rest []
      else splitLinesAux rest (c :: acc)

/-- The sequence of lines `bufio.Scanner`/`ScanLines` yields on `s`. -/
def splitLines (s : String) : List String :=
  (splitLinesAux s.data []).map String.mk

/-- The line-processing loop of `ConnectStream` (stream.go:53-86), returning
the `(event-kind, data)` pairs handed to `dispatchEvent`, in order.  The
second argument is the `currentEvent` state variable. -/
def processLines : List String → String → List (String × String)
  | [], _ => []
  | line :: rest, currentEvent =>
      if hasPrefixGo line ":" then
        processLines rest currentEvent
      else if line = "" then
        processLines rest ""
      else if hasPrefixGo line "event:" then
        processLines rest (trimSpaceGo (trimPrefixGo line "event:"))
      else if hasPrefixGo line "data:" then
        (currentEvent, trimSpaceGo (trimPrefixGo line "data:")) :: processLines rest currentEvent
      else
        processLines rest currentEvent

/-- The pairs dispatched for a complete stream body, starting from the
unset event kind (`var currentEvent string` zero value). -/
def connectStreamPairs (input : String) : List (String × String) :=
  processLines (splitLines input) ""

/-! ### Data model (`internal/types.go`) -/

/-- `PayloadData` (types.go:48-59). -/
structure PayloadData where
  fingerprint : String
  serial_number : String
  common_name : String
  domains : List String
  issuer_org : String
  issuer_cn : String
  not_before : String
  not_after : String
  ct_log_sources : List String
  seen_at : String
deriving DecidableEq, Repr

/-- `WebhookPayload` (types.go:39-45). -/
structure WebhookPayload where
  event : String
  event_id : String
  timestamp : String
  api_version : String
  data : PayloadData
deriving DecidableEq, Repr

/-- `StreamMeta` (types.go:62-65). -/
structure StreamMeta where
  testId : String
  streamDurationSeconds : Int
deriving DecidableEq, Repr

/-- `DeliveryResult` (types.go:69-77). -/
structure DeliveryResult where
  Index : Int
  CommonName : String
  Status : Int
  StatusText : String
  LatencyMs : Int
  Success : Bool
  Error : String
deriving DecidableEq, Repr

/-- `SessionError` (types.go:33-36). -/
structure SessionError where
  Code : String
  Message : String
deriving DecidableEq, Repr

/-- `SessionData` (types.go:24-30). -/
structure SessionData where
  TestID : String
  Secret : String
  StreamURL : String
  ExpiresInSeconds : Int
  StreamDurationSeconds : Int
deriving DecidableEq, Repr

/-- `SessionResponse` (types.go:17-21).  Go's pointer fields become
`Option` (nil = `none`). -/
structure SessionResponse where
  Success : Bool
  Data : Option SessionData
  Error : Option SessionError
deriving DecidableEq, Repr

/-! ### Event dispatcher (`internal/stream.go`, `dispatchEvent`)

`json.Unmarshal` is external library code; decoding into `StreamMeta`
and `WebhookPayload` is therefore an oracle pair `(decMeta, decPayload)`
returning `none` exactly when unmarshalling errors.  All four callbacks
are non-nil in every `Run` invocation (run.go:103-165), so the nil checks
of the source are always-true and the dispatched events are returned as
values. -/

/-- A callback invocation produced by `dispatchEvent`. -/
inductive SSEEvent where
  | metaEvt (m : StreamMeta)
  | payloadEvt (p : WebhookPayload)
  | completeEvt (msg : String)
  | errorEvt (msg : String)
deriving DecidableEq, Repr

/-- `dispatchEvent` (stream.go:103-132): `none` when the record is
silently dropped (decode failure), otherwise the callback it invokes. -/
def dispatchEvent (decMeta : String → Option StreamMeta)
    (decPayload : String → Option WebhookPayload)
    (eventType data : String) : Option SSEEvent :=
  if eventType = "meta" then
    (decMeta data).map SSEEvent.metaEvt
  else if eventType = "complete" then
    some (SSEEvent.completeEvt data)
  else if eventType = "error" then
    some (SSEEvent.errorEvt data)
  else
    (decPayload data).map SSEEvent.payloadEvt

/-- The callback invocations performed while scanning `lines` with
pending kind `cur`: each `data:` line is dispatched immediately
(stream.go:79-84), so the invocation sequence is the dispatch of the
pair sequence in order. -/
def streamEvents (decMeta : String → Option StreamMeta)
    (decPayload : String → Option WebhookPayload)
    (lines : List String) (cur : String) : List SSEEvent :=
  (processLines lines cur).filterMap (fun kd => dispatchEvent decMeta decPayload kd.1 kd.2)

/-! ### Signer (`internal/sender.go`, `SignPayload`)

`crypto/sha256` and `crypto/hmac` are modelled by a direct FIPS-180-4
SHA-256 over byte lists (bytes as `Nat < 256`, 32-bit words as `Nat`
reduced mod `2^32`) and the RFC 2104 HMAC construction the Go stdlib
implements, with `[]byte(s)` as UTF-8 encoding. -/

def w32 (n : Nat) : Nat := n % 4294967296

def rotr32 (n x : Nat) : Nat := w32 ((x >>> n) ||| (x <<< (32 - n)))

def bigSigma0 (x : Nat) : Nat := (rotr32 2 x) ^^^ (rotr32 13 x) ^^^ (rotr32 22 x)

def bigSigma1 (x : Nat) : Nat := (rotr32 6 x) ^^^ (rotr32 11 x) ^^^ (rotr32 25 x)

def smallSigma0 (x : Nat) : Nat := (rotr32 7 x) ^^^ (rotr32 18 x) ^^^ (x >>> 3)

def smallSigma1 (x : Nat) : Nat := (rotr32 17 x) ^^^ (rotr32 19 x) ^^^ (x >>> 10)

/-- The 64 SHA-256 round constants of FIPS 180-4 §4.2.2, in decimal. -/
def sha256K : List Nat :=
  [1116352408, 1899447441, 3049323471, 3921009573, 961987163,
   1508970993, 2453635748, 2870763221, 3624381080, 310598401,
   607225278, 1426881987, 1925078388, 2162078206, 2614888103,
   3248222580, 3835390401, 4022224774, 264347078, 604807628,
   770255983, 1249150122, 1555081692, 1996064986, 2554220882,
   2821834349, 2952996808, 3210313671, 3336571891, 3584528711,
   113926993, 338241895, 666307205, 773529912, 1294757372,
   1396182291, 1695183700, 1986661051, 2177026350, 2456956037,
   2730485921, 2820302411, 3259730800, 3345764771, 3516065817,
   3600352804, 4094571909, 275423344, 430227734, 506948616,
   659060556, 883997877, 958139571, 1322822218, 1537002063,
   1747873779, 1955562222, 2024104815, 2227730452, 2361852424,
   2428436474, 2756734187, 3204031479, 3329325298]

/-- The eight 32-bit working registers of the compression function. -/
structure Hash8 where
  r0 : Nat
  r1 : Nat
  r2 : Nat
  r3 : Nat
  r4 : Nat
  r5 : Nat
  r6 : Nat
  r7 : Nat
deriving DecidableEq, Repr

/-- The eight SHA-256 initial hash values of FIPS 180-4 §5.3.3, in decimal. -/
def initH : Hash8 :=
  ⟨1779033703, 3144134277, 1013904242, 2773480762,
   1359893119, 2600822924, 528734635, 1541459225⟩

/-- The 16 big-endian message words of one 64-byte chunk. -/
def chunkWords (chunk : List Nat) : List Nat :=
  (List.range 16).map (fun i =>
    (chunk.getD (4 * i) 0) * 16777216 + (chunk.getD (4 * i + 1) 0) * 65536 +
      (chunk.getD (4 * i + 2) 0) * 256 + chunk.getD (4 * i + 3) 0)

def nextScheduleWord (ws : List Nat) : Nat :=
  let n := ws.length
  w32 (smallSigma1 (ws.getD (n - 2) 0) + ws.getD (n - 7) 0 +
    smallSigma0 (ws.getD (n - 15) 0) + ws.getD (n - 16) 0)

/-- The 64-entry message schedule of one chunk. -/
def msgSchedule (chunk : List Nat) : List Nat :=
  (List.range 48).foldl (fun ws _ => ws ++ [nextScheduleWord ws]) (chunkWords chunk)

def roundStep (ws : List Nat) (r : Hash8) (t : Nat) : Hash8 :=
  let ch := w32 ((r.r4 &&& r.r5) ^^^ ((r.r4 ^^^ 0xffffffff) &&& r.r6))
  let temp1 := w32 (r.r7 + bigSigma1 r.r4 + ch + sha256K.getD t 0 + ws.getD t 0)
  let maj := w32 ((r.r0 &&& r.r1) ^^^ (r.r0 &&& r.r2) ^^^ (r.r1 &&& r.r2))
  let temp2 := w32 (bigSigma0 r.r0 + maj)
  ⟨w32 (temp1 + temp2), r.r0, r.r1, r.r2, w32 (r.r3 + temp1), r.r4, r.r5, r.r6⟩

def compressChunk (H : Hash8) (chunk : List Nat) : Hash8 :=
  let f := (List.range 64).foldl (roundStep (msgSchedule chunk)) H
  ⟨w32 (H.r0 + f.r0), w32 (H.r1 + f.r1), w32 (H.r2 + f.r2), w32 (H.r3 + f.r3),
   w32 (H.r4 + f.r4), w32 (H.r5 + f.r5), w32 (H.r6 + f.r6), w32 (H.r7 + f.r7)⟩

def processChunks : Hash8 → List Nat → Hash8
  | H, [] => H
  | H, c :: rest =>
      processChunks (compressChunk H ((c :: rest).take 64)) ((c :: rest).drop 64)
termination_by _ l => l.length
decreasing_by
  simp only [List.length_drop, List.length_cons]
  exact Nat.sub_lt (Nat.succ_pos _) (by decide)

/-- FIPS-180-4 padding: `0x80`, zeros to 56 mod 64, 64-bit big-endian
bit length. -/
def sha256Pad (msg : List Nat) : List Nat :=
  let L := msg.length
  msg ++ [128] ++ List.replicate ((119 - (L % 64)) % 64) 0 ++
    (List.range 8).map (fun i => ((8 * L) >>> (8 * (7 - i))) % 256)

def wordBytes (w : Nat) : List Nat :=
  [(w >>> 24) % 256, (w >>> 16) % 256, (w >>> 8) % 256, w % 256]

/-- SHA-256 of a byte list, as a 32-entry byte list. -/
def sha256 (msg : List Nat) : List Nat :=
  let H := processChunks initH (sha256Pad msg)
  wordBytes H.r0 ++ wordBytes H.r1 ++ wordBytes H.r2 ++ wordBytes H.r3 ++
    wordBytes H.r4 ++ wordBytes H.r5 ++ wordBytes H.r6 ++ wordBytes H.r7

/-- RFC 2104 HMAC over SHA-256 (block size 64), as `crypto/hmac` builds it. -/
def hmacSha256 (key msg : List Nat) : List Nat :=
  let k1 := if 64 < key.length then sha256 key else key
  let kp := k1 ++ List.replicate (64 - k1.length) 0
  sha256 ((kp.map (fun b => b ^^^ 0x5c)) ++ sha256 ((kp.map (fun b => b ^^^ 0x36)) ++ msg))

/-- Go's `[]byte(s)`: the UTF-8 encoding of the string. -/
def utf8Bytes (s : String) : List Nat :=
  s.data.flatMap (fun c =>
    let n := c.toNat
    if n < 128 then [n]
    else if n < 2048 then [192 ||| (n >>> 6), 128 ||| (n &&& 63)]
    else if n < 65536 then
      [224 ||| (n >>> 12), 128 ||| ((n >>> 6) &&& 63), 128 ||| (n &&& 63)]
    else
      [240 ||| (n >>> 18), 128 ||| ((n >>> 12) &&& 63),
       128 ||| ((n >>> 6) &&& 63), 128 ||| (n &&& 63)])

def hexDigitChar (n : Nat) : Char :=
  if n < 10 then Char.ofNat (48 + n) else Char.ofNat (87 + n)

/-- `encoding/hex.EncodeToString`: two lowercase hex digits per byte. -/
def hexOfBytes (l : List Nat) : List Char :=
  l.flatMap (fun b => [hexDigitChar (b / 16), hexDigitChar (b % 16)])

/-- `SignPayload` (sender.go:18-22): hex-encoded HMAC-SHA256 of `body`
keyed by `secret`. -/
def SignPayload (body secret : String) : String :=
  String.mk (hexOfBytes (hmacSha256 (utf8Bytes secret) (utf8Bytes body)))

/-! ### Delivery client (`internal/sender.go`, `DeliverPayload`)

The external effects of one delivery — `json.Marshal`, `http.NewRequest`
and the single `client.Do` exchange under its 10-second timeout — are an
explicit environment.  The function performs exactly one exchange per
call and no retry, exactly as the source does. -/

/-- The outcome of the one `client.Do` call: a transport error (which
includes the 10-second timeout expiring) or a response with its status
code and `http.StatusText`. -/
inductive HTTPResult where
  | failure (msg : String)
  | response (status : Int) (statusText : String)
deriving DecidableEq, Repr

/-- Environment of one `DeliverPayload` call. -/
structure DeliveryEnv where
  marshalResult : Except String String
  reqResult : Option String
  httpResult : HTTPResult
  latencyMs : Int
deriving Repr

/-- `DeliverPayload` (sender.go:27-76). -/
def DeliverPayload (env : DeliveryEnv) (payload : WebhookPayload)
    (targetURL secret : String) (index : Int) : DeliveryResult :=
  let result : DeliveryResult :=
    { Index := index, CommonName := payload.data.common_name, Status := 0,
      StatusText := "", LatencyMs := 0, Success := false, Error := "" }
  match env.marshalResult with
  | Except.error e => { result with Error := "failed to marshal payload: " ++ e }
  | Except.ok body =>
    let _signature := SignPayload body secret
    match env.reqResult with
    | some e => { result with Error := "failed to create request: " ++ e }
    | none =>
      let result := { result with LatencyMs := env.latencyMs }
      match env.httpResult with
      | HTTPResult.failure e => { result with Error := "delivery failed: " ++ e }
      | HTTPResult.response st stText =>
        let result := { result with
          Status := st
          StatusText := stText
          Success := decide (200 ≤ st) && decide (st < 300) }
        if result.Success then result
        else { result with Error := "received status " ++ toString st ++ " " ++ stText }

/-! ### Summary computation (`internal/output.go`, `PrintSummary`)

`PrintSummary` computes `total`, `succeeded`, `totalLatency`, `avgMs`
(int64 truncating division) and `pct` (`float64`; modelled exactly in
`ℚ`, of which the IEEE value is the rounding) before formatting.  The
percentage is rendered with `%.1f`, i.e. rounded to one decimal. -/

/-- The aggregate numbers `PrintSummary` computes before formatting. -/
structure SummaryStats where
  succeeded : Nat
  total : Nat
  avgMs : Int
  pct : ℚ
deriving DecidableEq, Repr

/-- The computation of output.go:127-150: `total`, `succeeded`,
`totalLatency`, truncating int64 division for `avgMs`, and the
percentage `float64(succeeded) / float64(total) * 100.0`. -/
def summaryStats (results : List DeliveryResult) : SummaryStats :=
  let total := results.length
  let succeeded := (results.filter (fun r => r.Success)).length
  let totalLatency : Int := (results.map (fun r => r.LatencyMs)).sum
  let avgMs : Int := if 0 < total then totalLatency.tdiv total else 0
  let pct : ℚ := if 0 < total then (succeeded : ℚ) / (total : ℚ) * 100 else 0
  ⟨succeeded, total, avgMs, pct⟩

/-! ### Session bootstrapper (`internal/session.go`, `CreateSession`)

External effects of the single POST exchange: request construction,
`client.Do`, and `json.Decode` of the response body. -/

/-- The effectful steps of one `CreateSession` call: request-creation
failure, transport failure, or a response with status code and the
result of decoding its body into `SessionResponse` (`none` = decode
error). -/
inductive SessionFetch where
  | reqError (msg : String)
  | doError (msg : String)
  | response (status : Int) (decoded : Option SessionResponse)
deriving DecidableEq, Repr

/-- `CreateSession` (session.go:18-71), returning `Except` for the Go
`(*SessionResponse, error)` pair. -/
def CreateSession (fetch : SessionFetch) : Except String SessionResponse :=
  match fetch with
  | SessionFetch.reqError e => Except.error ("failed to create session request: " ++ e)
  | SessionFetch.doError e => Except.error ("failed to create session: " ++ e)
  | SessionFetch.response st dec =>
    if st ≠ 200 ∧ st ≠ 201 then
      match dec with
      | some sessResp =>
        match sessResp.Error with
        | some er =>
          Except.error ("session creation failed (" ++ toString st ++ "): " ++
            er.Code ++ " - " ++ er.Message)
        | none => Except.error ("session creation failed with status " ++ toString st)
      | none => Except.error ("session creation failed with status " ++ toString st)
    else
      match dec with
      | none => Except.error "failed to decode session response"
      | some sessResp =>
        if !sessResp.Success || sessResp.Data.isNone then
          match sessResp.Error with
          | some er =>
            Except.error ("session creation failed: " ++ er.Code ++ " - " ++ er.Message)
          | none => Except.error "session creation returned unsuccessful response"
        else
          Except.ok sessResp

/-! ### Orchestrator (`internal/run.go`, `Run`)

The `OnPayload` callback (run.go:108-152) is driven sequentially by the
stream scan loop; its effect on the mutex-guarded state
`(index, results, filePayloads)` is a fold over the decoded records.
`deliveryWorld i` is the HTTP environment met by the delivery carrying
index `i`. -/

/-- The mutex-guarded shared state of `Run` (run.go:95-100). -/
structure OrchState where
  index : Int
  results : List DeliveryResult
  filePayloads : Nat
deriving Repr

/-- One `OnPayload` invocation (run.go:108-152).  `urlSet` is
`opts.URL != ""`, `fileOpen` is `outFile != nil`, `marshalOk` tells
whether `json.Marshal(payload)` succeeded for the file sink. -/
def onPayloadStep (urlSet fileOpen marshalOk : Bool)
    (deliveryWorld : Int → DeliveryEnv) (targetURL secret : String)
    (st : OrchState) (payload : WebhookPayload) : OrchState :=
  let currentIndex := st.index + 1
  let st := { st with index := currentIndex }
  let st :=
    if fileOpen && marshalOk then { st with filePayloads := st.filePayloads + 1 } else st
  if urlSet then
    { st with results :=
        st.results ++ [DeliverPayload (deliveryWorld currentIndex) payload targetURL secret currentIndex] }
  else
    st

/-- The shared state after the whole run's records have been processed,
starting from the zero values of run.go:95-100. -/
def runPayloads (urlSet fileOpen marshalOk : Bool)
    (deliveryWorld : Int → DeliveryEnv) (targetURL secret : String)
    (payloads : List WebhookPayload) : OrchState :=
  payloads.foldl (onPayloadStep urlSet fileOpen marshalOk deliveryWorld targetURL secret)
    ⟨0, [], 0⟩

/-- `checkForFailures` (run.go:250-257): the error `Run` returns when
some delivery failed, else `none` (Go `nil`). -/
def checkForFailures : List DeliveryResult → Option String
  | [] => none
  | r :: rest => if !r.Success then some "some deliveries failed" else checkForFailures rest

/-- The terminal error selection of `Run` (run.go:214-228).  `streamErr`
is what `ConnectStream` returned, `ctxErr` is `ctx.Err()` at that point
(`some _` iff the cancellation signal was observed). -/
def runFinish (streamErr : Option String) (ctxErr : Option String)
    (finalResults : List DeliveryResult) (finalFilePayloads : Nat) : Option String :=
  let hasOutput := 0 < finalResults.length || 0 < finalFilePayloads
  if streamErr.isSome && ctxErr.isSome && hasOutput then
    checkForFailures finalResults
  else if streamErr.isSome && ctxErr.isNone then
    some ("stream error: " ++ streamErr.getD "")
  else
    checkForFailures finalResults

/-! ### Concrete sample values and small derived definitions -/

/-- A representative decoded stream record. -/
def samplePayload : WebhookPayload :=
  ⟨"cert.created", "evt-1", "2024-01-01T00:00:00Z", "v1",
    ⟨"aa", "01", "example.com", ["example.com"], "ACME", "ACME CA",
      "2024-01-01", "2024-03-31", ["log1"], "2024-01-01T00:00:01Z"⟩⟩

/-- A delivery environment whose exchange answers `503`. -/
def env503 : DeliveryEnv :=
  ⟨Except.ok "\x7b\x7d", none, HTTPResult.response 503 "Service Unavailable", 42⟩

/-- A delivery environment whose exchange answers `200 OK`. -/
def env200 : DeliveryEnv :=
  ⟨Except.ok "\x7b\x7d", none, HTTPResult.response 200 "OK", 10⟩

/-- A successful delivery outcome, as recorded after a `200` response. -/
def sampleOkResult : DeliveryResult :=
  ⟨1, "example.com", 200, "OK", 12, true, ""⟩

/-- The contiguous integer range `[a, a+1, ..., a+n-1]`. -/
def intRange : Int → Nat → List Int
  | _, 0 => []
  | a, n + 1 => a :: intRange (a + 1) n

/-- A session envelope with `Success = true` and data present. -/
def goodSessionResponse : SessionResponse :=
  ⟨true, some ⟨"t1", "s3cret", "https://api.certwatch.app/stream", 600, 300⟩, none⟩

/-- The three outcomes of the spec's summary example: latencies 10, 20,
30 ms, two successes out of three. -/
def summaryExampleOutcomes : List DeliveryResult :=
  [⟨1, "a.example", 200, "OK", 10, true, ""⟩,
   ⟨2, "b.example", 204, "No Content", 20, true, ""⟩,
   ⟨3, "c.example", 500, "Internal Server Error", 30, false,
     "received status 500 Internal Server Error"⟩]

/-! ### Helper lemmas -/

theorem data_colon : (":" : String).data = [':'] := rfl

theorem data_event : ("event:" : String).data = ['e', 'v', 'e', 'n', 't', ':'] := rfl

theorem data_data : ("data:" : String).data = ['d', 'a', 't', 'a', ':'] := rfl

theorem data_append (a b : String) : (a ++ b).data = a.data ++ b.data := rfl

theorem mk_data (s : String) : String.mk s.data = s := rfl

theorem eq_empty_iff_data (s : String) : s = "" ↔ s.data = [] := by
  constructor
  · intro h
    rw [h]
  · intro h
    cases s with
    | mk l =>
      have hl : l = [] := h
      subst hl
      rfl

/-- Any line carrying the `data:` prefix is classified by the scan loop
as a data line: it is not a comment, not blank, not an `event:` line. -/
theorem data_line_shape (line : String) (h : hasPrefixGo line "data:" = true) :
    hasPrefixGo line ":" = false ∧ ¬line = "" ∧ hasPrefixGo line "event:" = false := by
  unfold hasPrefixGo at h
  rw [data_data] at h
  cases hline : line.data with
  | nil => rw [hline] at h; simp [List.isPrefixOf] at h
  | cons c tl =>
    rw [hline] at h
    simp only [List.isPrefixOf, Bool.and_eq_true, beq_iff_eq] at h
    obtain ⟨hc, -⟩ := h
    refine ⟨?_, ?_, ?_⟩
    · simp [hasPrefixGo, data_colon, hline, List.isPrefixOf, ← hc]
    · rw [eq_empty_iff_data, hline]
      simp
    · simp [hasPrefixGo, data_event, hline, List.isPrefixOf, ← hc]

/-- A data line yields its pair and leaves the pending kind unchanged
(stream.go:79-84). -/
theorem processLines_data_line (line : String) (rest : List String) (cur : String)
    (h : hasPrefixGo line "data:" = true) :
    processLines (line :: rest) cur =
      (cur, trimSpaceGo (trimPrefixGo line "data:")) :: processLines rest cur := by
  obtain ⟨h1, h2, h3⟩ := data_line_shape line h
  simp [processLines, h1, h2, h3, h]

/-- Scanning lines that contain no `event:` declaration from the unset
kind never leaves the unset kind, so the emitted pairs split. -/
theorem processLines_split (mid rest : List String)
    (h : ∀ l ∈ mid, hasPrefixGo l "event:" = false) :
    processLines (mid ++ rest) "" = processLines mid "" ++ processLines rest "" := by
  induction mid with
  | nil => simp [processLines]
  | cons line tl ih =>
    have hline : hasPrefixGo line "event:" = false := h line (by simp)
    have ih' := ih (fun l hl => h l (by simp [hl]))
    simp only [List.cons_append, processLines, hline, Bool.false_eq_true, if_false]
    split_ifs <;> simp [ih']

/-- A blank line resets the pending kind (stream.go:69-72). -/
theorem processLines_blank (rest : List String) (cur : String) :
    processLines ("" :: rest) cur = processLines rest "" := by
  simp [processLines, hasPrefixGo, data_colon, List.isPrefixOf]

/-! ### Claim theorems: stream parser -/

/-- C5: an empty input line resets the pending event-kind to the default
(unset); hence for any pending kind `k` (named or not), once a blank line
is followed by any lines carrying no `event:` declaration, the next
`data:` line is dispatched under the default (unset) kind `""`. -/
theorem blank_line_resets_event_kind (k : String) (mid : List String) (dataLine : String)
    (rest : List String) (hmid : ∀ l ∈ mid, hasPrefixGo l "event:" = false)
    (hdl : hasPrefixGo dataLine "data:" = true) :
    processLines ("" :: (mid ++ dataLine :: rest)) k =
      processLines mid "" ++
        ("", trimSpaceGo (trimPrefixGo dataLine "data:")) :: processLines rest "" := by
  rw [processLines_blank, processLines_split mid (dataLine :: rest) hmid,
    processLines_data_line dataLine rest "" hdl]

theorem blank_line_resets_event_kind_witness :
    hasPrefixGo "data: second" "data:" = true ∧
    processLines ("" :: ([] ++ "data: second" :: [])) "meta" =
      processLines [] "" ++
        ("", trimSpaceGo (trimPrefixGo "data: second" "data:")) :: processLines [] "" :=
  ⟨by decide,
   blank_line_resets_event_kind "meta" [] "data: second" [] (by simp) (by decide)⟩

/-- C6: a line beginning with `:` is a comment, discarded without
touching the pending event-kind; and the concrete input
`":hi\nevent: meta\ndata: {json}\n\n"` dispatches exactly the single
pair `(meta, trimmed-json)`, nothing for the comment line. -/
theorem comment_line_discarded_meta_dispatched :
    (∀ (k s : String) (rest : List String),
      processLines ((":" ++ s) :: rest) k = processLines rest k) ∧
    connectStreamPairs
        ":hi\nevent: meta\ndata: \x7b\"testId\":\"t1\",\"streamDurationSeconds\":60\x7d\n\n" =
      [("meta", "\x7b\"testId\":\"t1\",\"streamDurationSeconds\":60\x7d")] := by
  constructor
  · intro k s rest
    simp [processLines, hasPrefixGo, data_append, data_colon, List.isPrefixOf]
  · decide

/-- C8: a `data:` line whose body fails to decode into the
kind-appropriate structure (`meta` → `StreamMeta`, default →
`WebhookPayload`) invokes no callback and the scan of the remaining
lines proceeds unchanged. -/
theorem malformed_record_dropped (decMeta : String → Option StreamMeta)
    (decPayload : String → Option WebhookPayload) (cur dataLine : String)
    (rest : List String) (hdl : hasPrefixGo dataLine "data:" = true)
    (hfail :
      (cur = "meta" ∧ decMeta (trimSpaceGo (trimPrefixGo dataLine "data:")) = none) ∨
      (¬cur = "meta" ∧ ¬cur = "complete" ∧ ¬cur = "error" ∧
        decPayload (trimSpaceGo (trimPrefixGo dataLine "data:")) = none)) :
    streamEvents decMeta decPayload (dataLine :: rest) cur =
      streamEvents decMeta decPayload rest cur := by
  unfold streamEvents
  rw [processLines_data_line dataLine rest cur hdl]
  rcases hfail with ⟨hm, hd⟩ | ⟨h1, h2, h3, hd⟩
  · subst hm
    simp [dispatchEvent, hd]
  · simp [dispatchEvent, h1, h2, h3, hd]

theorem malformed_record_dropped_witness :
    hasPrefixGo "data: \x7bnot json" "data:" = true ∧
    streamEvents (fun _ => none) (fun _ => none) ["data: \x7bnot json"] "" =
      streamEvents (fun _ => none) (fun _ => none) [] "" :=
  ⟨by decide,
   malformed_record_dropped (fun _ => none) (fun _ => none) "" "data: \x7bnot json" []
     (by decide) (Or.inr ⟨by decide, by decide, by decide, rfl⟩)⟩

/-! ### Claim theorems: signer -/

theorem hexOfBytes_length (l : List Nat) : (hexOfBytes l).length = 2 * l.length := by
  induction l with
  | nil => rfl
  | cons b tl ih =>
    unfold hexOfBytes at ih ⊢
    simp only [List.flatMap_cons, List.length_append, List.length_cons, List.length_nil, ih]
    omega

theorem sha256_length (msg : List Nat) : (sha256 msg).length = 32 := by
  simp [sha256, wordBytes]

theorem hmacSha256_length (key msg : List Nat) : (hmacSha256 key msg).length = 32 := by
  simp only [hmacSha256]
  exact sha256_length _

/-- C7: `SignPayload` is deterministic (equal inputs give equal output),
total (defined for every body and secret of any length or content), and
its hex output always has exactly 64 characters. -/
theorem sign_deterministic_length_64 (body secret body2 secret2 : String)
    (hb : body = body2) (hs : secret = secret2) :
    SignPayload body secret = SignPayload body2 secret2 ∧
      (SignPayload body secret).length = 64 := by
  subst hb
  subst hs
  refine ⟨rfl, ?_⟩
  show (String.mk (hexOfBytes (hmacSha256 (utf8Bytes secret) (utf8Bytes body)))).length = 64
  have hmk : ∀ l : List Char, (String.mk l).length = l.length := fun _ => rfl
  rw [hmk, hexOfBytes_length, hmacSha256_length]

theorem sign_deterministic_length_64_witness :
    ("body" : String) = "body" ∧ ("secret" : String) = "secret" ∧
      (SignPayload "body" "secret" = SignPayload "body" "secret" ∧
        (SignPayload "body" "secret").length = 64) :=
  ⟨rfl, rfl, sign_deterministic_length_64 "body" "secret" "body" "secret" rfl rfl⟩

/-! ### Claim theorems: delivery client -/

theorem append_ne_empty (s t : String) (h : ¬s = "") : ¬(s ++ t) = "" := by
  intro hc
  rw [eq_empty_iff_data, data_append, List.append_eq_nil] at hc
  exact h ((eq_empty_iff_data s).mpr hc.1)

/-- C4: every `DeliveryResult` of `DeliverPayload` has
`Success = (200 ≤ Status < 300)`, and `Status = 0` (no response: marshal
or request failure, transport failure, timeout) forces `Success = false`
with a non-empty error string.  The function performs the single
`client.Do` exchange of its environment and never retries. -/
theorem deliver_success_iff_status (env : DeliveryEnv) (payload : WebhookPayload)
    (targetURL secret : String) (index : Int) :
    ((DeliverPayload env payload targetURL secret index).Success = true ↔
      200 ≤ (DeliverPayload env payload targetURL secret index).Status ∧
        (DeliverPayload env payload targetURL secret index).Status < 300) ∧
    ((DeliverPayload env payload targetURL secret index).Status = 0 →
      (DeliverPayload env payload targetURL secret index).Success = false ∧
        ¬(DeliverPayload env payload targetURL secret index).Error = "") := by
  obtain ⟨mar, req, htp, lat⟩ := env
  cases mar with
  | error e =>
    refine ⟨by simp [DeliverPayload], fun _ => ⟨by simp [DeliverPayload], ?_⟩⟩
    exact append_ne_empty "failed to marshal payload: " e (by decide)
  | ok body =>
    cases req with
    | some e =>
      refine ⟨by simp [DeliverPayload], fun _ => ⟨by simp [DeliverPayload], ?_⟩⟩
      exact append_ne_empty "failed to create request: " e (by decide)
    | none =>
      cases htp with
      | failure e =>
        refine ⟨by simp [DeliverPayload], fun _ => ⟨by simp [DeliverPayload], ?_⟩⟩
        exact append_ne_empty "delivery failed: " e (by decide)
      | response st stText =>
        have hStatus :
            (DeliverPayload ⟨Except.ok body, none, HTTPResult.response st stText, lat⟩
              payload targetURL secret index).Status = st := by
          unfold DeliverPayload
          dsimp only
          split <;> rfl
        have hSuccess :
            (DeliverPayload ⟨Except.ok body, none, HTTPResult.response st stText, lat⟩
              payload targetURL secret index).Success =
              (decide (200 ≤ st) && decide (st < 300)) := by
          unfold DeliverPayload
          dsimp only
          split <;> rfl
        have hError :
            (DeliverPayload ⟨Except.ok body, none, HTTPResult.response st stText, lat⟩
              payload targetURL secret index).Error =
              (if (decide (200 ≤ st) && decide (st < 300)) = true then ""
               else "received status " ++ toString st ++ " " ++ stText) := by
          unfold DeliverPayload
          dsimp only
          split <;> rfl
        constructor
        · rw [hSuccess, hStatus]
          simp [Bool.and_eq_true, decide_eq_true_eq]
        · intro h0
          rw [hStatus] at h0
          subst h0
          have hfalse : (decide (200 ≤ (0 : Int)) && decide ((0 : Int) < 300)) = false := by
            decide
          constructor
          · rw [hSuccess, hfalse]
          · rw [hError, hfalse]
            simp only [Bool.false_eq_true, if_false]
            exact append_ne_empty _ stText
              (append_ne_empty _ " " (append_ne_empty "received status " _ (by decide)))

theorem deliver_success_iff_status_witness :
    ((DeliverPayload env503 samplePayload "http://localhost:3000/webhook" "s3cret" 1).Success = true ↔
      200 ≤ (DeliverPayload env503 samplePayload "http://localhost:3000/webhook" "s3cret" 1).Status ∧
        (DeliverPayload env503 samplePayload "http://localhost:3000/webhook" "s3cret" 1).Status < 300) ∧
    ((DeliverPayload env503 samplePayload "http://localhost:3000/webhook" "s3cret" 1).Status = 0 →
      (DeliverPayload env503 samplePayload "http://localhost:3000/webhook" "s3cret" 1).Success = false ∧
        ¬(DeliverPayload env503 samplePayload "http://localhost:3000/webhook" "s3cret" 1).Error = "") :=
  deliver_success_iff_status env503 samplePayload "http://localhost:3000/webhook" "s3cret" 1

/-! ### Claim theorems: orchestrator exit status (run.go:214-228) -/

theorem checkForFailures_ne_none_iff (results : List DeliveryResult) :
    ¬checkForFailures results = none ↔ ∃ r ∈ results, r.Success = false := by
  induction results with
  | nil => simp [checkForFailures]
  | cons r tl ih =>
    by_cases hr : r.Success = true
    · simp [checkForFailures, hr, ih]
    · have hr' : r.Success = false := by simpa using hr
      simp [checkForFailures, hr']

/-- C1 (amended): in every run free of an un-cancelled stream error —
that is, `ConnectStream` returned nil, or the cancellation signal was
observed — `Run` returns a non-nil error iff some recorded outcome has
`Success = false`; in particular a cancellation after at least one
successfully processed record is not itself a failure. -/
theorem run_failure_iff_outcome_failed (streamErr ctxErr : Option String)
    (results : List DeliveryResult) (filePayloads : Nat)
    (h : streamErr = none ∨ ¬ctxErr = none) :
    (¬runFinish streamErr ctxErr results filePayloads = none ↔
      ∃ r ∈ results, r.Success = false) := by
  unfold runFinish
  rcases streamErr with _ | se
  · simp [checkForFailures_ne_none_iff]
  · rcases ctxErr with _ | ce
    · rcases h with h | h
      · exact absurd h (by simp)
      · exact absurd rfl h
    · by_cases ho : (0 < results.length || 0 < filePayloads) = true
      · simp [ho, checkForFailures_ne_none_iff]
      · simp [ho, checkForFailures_ne_none_iff]

theorem run_failure_iff_outcome_failed_witness :
    ((some "context canceled" : Option String) = none ∨
      ¬(some "context canceled" : Option String) = none) ∧
    (¬runFinish (some "context canceled") (some "context canceled") [sampleOkResult] 0 = none ↔
      ∃ r ∈ [sampleOkResult], r.Success = false) :=
  ⟨Or.inr (by simp),
   run_failure_iff_outcome_failed (some "context canceled") (some "context canceled")
     [sampleOkResult] 0 (Or.inr (by simp))⟩

/-- C1 counterexample to the unrestricted claim: a stream error with no
cancellation and no recorded outcomes makes `Run` return a non-nil error
("stream error: ...") although no outcome has `Success = false`. -/
theorem run_failure_iff_outcome_failed_cex :
    ¬runFinish (some "stream returned status 500") none [] 0 = none ∧
      ∀ r ∈ ([] : List DeliveryResult), r.Success = true := by
  constructor
  · simp [runFinish]
  · simp

/-- C2 (amended): a run whose cancellation signal is observed before any
record was processed (no outcomes, no file payloads) returns nil from
`Run` — the fall-through `checkForFailures` on an empty collection — so
the process exits zero; it is NOT reported as an incomplete run. -/
theorem cancellation_before_output_is_clean (streamErr : Option String) (c : String) :
    runFinish streamErr (some c) [] 0 = none := by
  rcases streamErr with _ | se <;> simp [runFinish, checkForFailures]

/-- C2 counterexample: at the concrete cancelled-before-any-record run
the claim demands a non-nil error, but `Run` returns nil (exit 0):
neither branch run.go:217 (`hasOutput` is false) nor run.go:224
(`ctx.Err() != nil`) fires, and run.go:228 returns nil on the empty
collection. -/
theorem cancellation_before_output_cex :
    runFinish (some "context canceled") (some "context canceled") [] 0 = none := by
  simp [runFinish, checkForFailures]

/-! ### Claim theorems: delivery outcome indices (run.go:108-152) -/

theorem DeliverPayload_Index (env : DeliveryEnv) (payload : WebhookPayload)
    (targetURL secret : String) (index : Int) :
    (DeliverPayload env payload targetURL secret index).Index = index := by
  obtain ⟨mar, req, htp, lat⟩ := env
  cases mar with
  | error e => rfl
  | ok body =>
    cases req with
    | some e => rfl
    | none =>
      cases htp with
      | failure e => rfl
      | response st stText =>
        unfold DeliverPayload
        dsimp only
        split <;> rfl

theorem onPayloadStep_index (fileOpen marshalOk : Bool) (world : Int → DeliveryEnv)
    (targetURL secret : String) (st : OrchState) (p : WebhookPayload) :
    (onPayloadStep true fileOpen marshalOk world targetURL secret st p).index =
      st.index + 1 := by
  simp only [onPayloadStep]
  split_ifs <;> rfl

theorem onPayloadStep_results (fileOpen marshalOk : Bool) (world : Int → DeliveryEnv)
    (targetURL secret : String) (st : OrchState) (p : WebhookPayload) :
    (onPayloadStep true fileOpen marshalOk world targetURL secret st p).results =
      st.results ++
        [DeliverPayload (world (st.index + 1)) p targetURL secret (st.index + 1)] := by
  simp only [onPayloadStep]
  split_ifs <;> rfl

theorem intRange_succ (a : Int) (n : Nat) : intRange a (n + 1) = a :: intRange (a + 1) n := rfl

theorem runPayloads_indices_general (fileOpen marshalOk : Bool) (world : Int → DeliveryEnv)
    (targetURL secret : String) (payloads : List WebhookPayload) (st : OrchState) :
    ((payloads.foldl (onPayloadStep true fileOpen marshalOk world targetURL secret)
        st).results).map (fun r => r.Index) =
      st.results.map (fun r => r.Index) ++ intRange (st.index + 1) payloads.length := by
  induction payloads generalizing st with
  | nil => simp [intRange]
  | cons p tl ih =>
    rw [List.foldl_cons, ih, onPayloadStep_results, onPayloadStep_index, List.map_append,
      List.length_cons, intRange_succ]
    simp [DeliverPayload_Index]

/-- C3: with the HTTP-delivery sink active (`opts.URL != ""`), one
`DeliveryOutcome` is appended per decoded record and the recorded
indices are exactly the contiguous range `1..N` in arrival order — the
per-record counter increment under the mutex is the single assignment
point. -/
theorem delivery_indices_contiguous (fileOpen marshalOk : Bool) (world : Int → DeliveryEnv)
    (targetURL secret : String) (payloads : List WebhookPayload) :
    ((runPayloads true fileOpen marshalOk world targetURL secret payloads).results).map
        (fun r => r.Index) = intRange 1 payloads.length := by
  unfold runPayloads
  rw [runPayloads_indices_general]
  simp

/-! ### Claim theorems: summary numbers (output.go:127-150) -/

/-- C9 counterexample: on the example outcomes the computed `pct` is
exactly `200/3` (≈ 66.667), which is not `66.7`; only the `%.1f`
rendering shows `66.7`. -/
theorem summary_pct_not_667_tenths :
    (summaryStats summaryExampleOutcomes).pct = 200 / 3 ∧ ¬((200 : ℚ) / 3 = 667 / 10) := by
  constructor
  · show (if 0 < (3 : Nat) then ((2 : Nat) : ℚ) / ((3 : Nat) : ℚ) * 100 else 0) = 200 / 3
    norm_num
  · norm_num

/-- C9 (amended): for the three outcomes with latencies 10, 20, 30 ms
and two successes, `avgMs = 20` exactly, and the computed percentage is
`200/3`, whose one-decimal rendering (`%.1f`) rounds to `66.7`
(`round (10 * pct) = 667`). -/
theorem summary_example_values :
    (summaryStats summaryExampleOutcomes).avgMs = 20 ∧
    (summaryStats summaryExampleOutcomes).pct = 200 / 3 ∧
    round ((summaryStats summaryExampleOutcomes).pct * 10) = 667 := by
  refine ⟨rfl, ?_, ?_⟩
  · show (if 0 < (3 : Nat) then ((2 : Nat) : ℚ) / ((3 : Nat) : ℚ) * 100 else 0) = 200 / 3
    norm_num
  · have hp : (summaryStats summaryExampleOutcomes).pct = 200 / 3 := by
      show (if 0 < (3 : Nat) then ((2 : Nat) : ℚ) / ((3 : Nat) : ℚ) * 100 else 0) = 200 / 3
      norm_num
    rw [hp]
    norm_num [round_eq]

/-! ### Claim theorems: session bootstrap (session.go:18-71) -/

/-- C10: `CreateSession` returns without error exactly on a 200/201
response whose body decodes to an envelope with `Success = true` and a
present `Data`; the returned envelope then has `Success = true` and
`Data` non-nil (so reading `Data.Secret`, `Data.StreamURL`,
`Data.StreamDurationSeconds` in run.go:63-65 is safe).  Every other
case — request/transport failure, non-200/201 status, undecodable body,
or an envelope with `Success = false` or missing data — yields an
error. -/
theorem session_ok_characterization (fetch : SessionFetch) :
    (∀ r, CreateSession fetch = Except.ok r → r.Success = true ∧ r.Data.isSome = true) ∧
    ((∃ r, CreateSession fetch = Except.ok r) ↔
      ∃ st sr, fetch = SessionFetch.response st (some sr) ∧ (st = 200 ∨ st = 201) ∧
        sr.Success = true ∧ sr.Data.isSome = true) := by
  cases fetch with
  | reqError m =>
    refine ⟨fun r h => by simp [CreateSession] at h, ?_⟩
    simp [CreateSession]
  | doError m =>
    refine ⟨fun r h => by simp [CreateSession] at h, ?_⟩
    simp [CreateSession]
  | response st dec =>
    by_cases h2xx : st = 200 ∨ st = 201
    · have hcond : ¬(st ≠ 200 ∧ st ≠ 201) := by tauto
      cases dec with
      | none =>
        refine ⟨fun r h => ?_, ?_⟩
        · simp [CreateSession, hcond] at h
        · simp [CreateSession, hcond]
      | some sr =>
        by_cases hgood : sr.Success = true ∧ sr.Data.isSome = true
        · have hbad : (!sr.Success || sr.Data.isNone) = false := by
            obtain ⟨d, hd⟩ := Option.isSome_iff_exists.mp hgood.2
            simp [hgood.1, hd]
          refine ⟨fun r h => ?_, ?_⟩
          · have : r = sr := by
              simp [CreateSession, hcond, hbad] at h
              exact h.symm
            rw [this]
            exact hgood
          · constructor
            · intro _
              exact ⟨st, sr, rfl, h2xx, hgood.1, hgood.2⟩
            · intro _
              exact ⟨sr, by simp [CreateSession, hcond, hbad]⟩
        · have hbad : (!sr.Success || sr.Data.isNone) = true := by
            rcases Decidable.not_and_iff_or_not.mp hgood with h | h
            · have hs : sr.Success = false := by simpa using h
              simp [hs]
            · have hd : sr.Data = none := by
                cases hD : sr.Data with
                | none => rfl
                | some d => exact absurd (by simp [hD]) h
              simp [hd]
          refine ⟨fun r h => ?_, ?_⟩
          · cases hse : sr.Error with
            | none => simp [CreateSession, hcond, hbad, hse] at h
            | some er => simp [CreateSession, hcond, hbad, hse] at h
          · constructor
            · intro ⟨r, h⟩
              cases hse : sr.Error with
              | none => simp [CreateSession, hcond, hbad, hse] at h
              | some er => simp [CreateSession, hcond, hbad, hse] at h
            · intro ⟨st2, sr2, heq, hst2, hsucc2, hdata2⟩
              obtain ⟨rfl, rfl⟩ : st2 = st ∧ sr2 = sr := by
                injection heq with h1 h2
                exact ⟨h1.symm, (Option.some.inj h2).symm⟩
              exact absurd ⟨hsucc2, hdata2⟩ hgood
    · have hcond : st ≠ 200 ∧ st ≠ 201 := by tauto
      have herr : ∃ e, CreateSession (SessionFetch.response st dec) = Except.error e := by
        cases dec with
        | none =>
          exact ⟨"session creation failed with status " ++ toString st,
            by simp [CreateSession, hcond]⟩
        | some sr =>
          cases hse : sr.Error with
          | none =>
            exact ⟨"session creation failed with status " ++ toString st,
              by simp [CreateSession, hcond, hse]⟩
          | some er =>
            exact ⟨"session creation failed (" ++ toString st ++ "): " ++
              er.Code ++ " - " ++ er.Message, by simp [CreateSession, hcond, hse]⟩
      obtain ⟨e, he⟩ := herr
      refine ⟨fun r h => ?_, ?_⟩
      · rw [he] at h
        cases h
      · constructor
        · intro ⟨r, h⟩
          rw [he] at h
          cases h
        · intro ⟨st2, sr2, heq, hst2, _, _⟩
          injection heq with h1 h2
          exact absurd (h1 ▸ hst2) h2xx

theorem session_ok_characterization_witness :
    (∀ r, CreateSession (SessionFetch.response 200 (some goodSessionResponse)) = Except.ok r →
      r.Success = true ∧ r.Data.isSome = true) ∧
    ((∃ r, CreateSession (SessionFetch.response 200 (some goodSessionResponse)) = Except.ok r) ↔
      ∃ st sr, SessionFetch.response 200 (some goodSessionResponse) =
          SessionFetch.response st (some sr) ∧ (st = 200 ∨ st = 201) ∧
        sr.Success = true ∧ sr.Data.isSome = true) :=
  session_ok_characterization (SessionFetch.response 200 (some goodSessionResponse))

end CertwatchCLI
